import Mathlib

/-
Verification development for the deploypilotorg client MCP server
(src/mcp-client/streamlit/server.py).

The Python source is shallowly embedded: each tool handler class becomes a
Lean function over an explicit server state, and every side effect of the
host system (filesystem tests, subprocess outcomes, clocks, temporary
directory names) is drawn from an explicit per-request oracle record
`StepWorld`, so that theorems quantify over every possible behaviour of the
environment.  The stdio dispatch loop of `main` becomes a recursive function
over the list of input lines.
-/

namespace MCPServer

/-- A single apostrophe character, used to build the quoted fragments that
appear in several of the servers message strings. -/
def sq : String := String.singleton (Char.ofNat 39)

/-- JSON values as produced by json.loads: null, booleans, numbers, strings,
arrays and objects.  Numbers are modelled as integers; no claim under
consideration depends on fractional numeric payloads. -/
inductive JValue where
  | null
  | bool (b : Bool)
  | num (n : Int)
  | str (s : String)
  | arr (xs : List JValue)
  | obj (fields : List (String × JValue))

/-- Field lookup on a JSON object, mirroring dict.get(k): the last binding
of a duplicated key wins (json.loads keeps the last).  On non-objects the
host would raise; callers model that raise explicitly. -/
def jGet (v : JValue) (k : String) : Option JValue :=
  match v with
  | .obj fields => (fields.reverse.lookup k)
  | _ => none

/-- Python truthiness of a JSON value. -/
def pyTruthy (v : JValue) : Bool :=
  match v with
  | .null => false
  | .bool b => b
  | .num n => n != 0
  | .str s => s != ""
  | .arr xs => !xs.isEmpty
  | .obj fs => !fs.isEmpty

/-- Python truthiness of an optional string field (None or str). -/
def pyTruthyOS (v : Option String) : Bool :=
  match v with
  | none => false
  | some s => s != ""

/-- The name of the Python type of a JSON value, as it appears in
AttributeError messages. -/
def pyTypeName (v : JValue) : String :=
  match v with
  | .null => "NoneType"
  | .bool _ => "bool"
  | .num _ => "int"
  | .str _ => "str"
  | .arr _ => "list"
  | .obj _ => "dict"

/-- The message of the AttributeError raised by calling .get on a value that
is not a dict. -/
def noGetAttrMsg (v : JValue) : String :=
  sq ++ pyTypeName v ++ sq ++ " object has no attribute " ++ sq ++ "get" ++ sq

mutual

/-- repr of a JSON value, as Python renders list and dict members. -/
def pyReprOf (v : JValue) : String :=
  match v with
  | .null => "None"
  | .bool b => if b then "True" else "False"
  | .num n => toString n
  | .str s => sq ++ s ++ sq
  | .arr xs => "[" ++ String.intercalate ", " (pyReprList xs) ++ "]"
  | .obj fs => "\x7b" ++ String.intercalate ", " (pyReprFields fs) ++ "\x7d"

/-- repr of the elements of a JSON array. -/
def pyReprList (xs : List JValue) : List String :=
  match xs with
  | [] => []
  | x :: rest => pyReprOf x :: pyReprList rest

/-- repr of the fields of a JSON object. -/
def pyReprFields (fs : List (String × JValue)) : List String :=
  match fs with
  | [] => []
  | (k, v) :: rest => (sq ++ k ++ sq ++ ": " ++ pyReprOf v) :: pyReprFields rest

end

/-- str of a JSON value, as an f-string interpolates it: strings appear
verbatim, containers through repr. -/
def pyStrOf (v : JValue) : String :=
  match v with
  | .str s => s
  | _ => pyReprOf v

/-- str of an optional JSON value, with absence rendered as None. -/
def pyStrOpt (v : Option JValue) : String :=
  pyStrOf (v.getD .null)

/-- str of an optional string, with None rendered literally. -/
def pyStrOS (v : Option String) : String :=
  match v with
  | none => "None"
  | some s => s

/-- Python equality between a JSON value and a string constant: only equal
string values compare equal. -/
def pyEqStr (v : JValue) (s : String) : Bool :=
  match v with
  | .str t => t == s
  | _ => false

/-- Python equality between an optional JSON value (a dict.get result) and a
string constant. -/
def pyEqStrOpt (v : Option JValue) (s : String) : Bool :=
  match v with
  | some w => pyEqStr w s
  | none => false

/-! ### String utilities over character lists

Character-list implementations of the str methods the server uses, written so
that the kernel can evaluate them on literals. -/

/-- Strip a prefix from a character list if it matches. -/
def dropPre (pat s : List Char) : Option (List Char) :=
  match pat, s with
  | [], rest => some rest
  | _ :: _, [] => none
  | p :: ps, c :: cs => if p = c then dropPre ps cs else none

/-- Fuelled split of a character list on a non-empty separator, scanning
left to right over non-overlapping occurrences (the semantics of both
str.split with an argument and the chunks consumed by str.replace). -/
def splitFuel (fuel : Nat) (pat : List Char) (s : List Char) : List (List Char) :=
  match fuel with
  | 0 => [s]
  | Nat.succ n =>
    match s with
    | [] => [[]]
    | c :: cs =>
      match dropPre pat s with
      | some rest => [] :: splitFuel n pat rest
      | none =>
        match splitFuel n pat cs with
        | [] => [[c]]
        | h :: t => (c :: h) :: t

/-- str.split(sep) for a non-empty separator. -/
def pySplit (s sep : String) : List String :=
  (splitFuel (s.data.length + 1) sep.data s.data).map (fun cs => String.mk cs)

/-- str.replace(old, new) for a non-empty old: every non-overlapping
occurrence is replaced, left to right. -/
def pyReplace (s old new : String) : String :=
  String.intercalate new (pySplit s old)

/-- The last "/"-separated segment of a URL: repo_url.split("/")[-1]. -/
def lastSegment (url : String) : String :=
  (pySplit url "/").getLastD ""

/-- Whitespace recognised by str.strip(). -/
def pyIsSpace (c : Char) : Bool :=
  c = ' ' || c = '\n' || c = '\t' || c = '\r'

/-- str.strip(): remove leading and trailing whitespace. -/
def pyStrip (s : String) : String :=
  String.mk (((s.data.dropWhile pyIsSpace).reverse.dropWhile pyIsSpace).reverse)

/-- os.path.join for the two-argument uses in the server: an absolute second
component replaces the first, otherwise the components are joined with a
single separator. -/
def joinPath (a b : String) : String :=
  if b = "" then a
  else if b.startsWith "/" then b
  else if a.endsWith "/" then a ++ b
  else a ++ "/" ++ b

/-! ### The calculator tool expression language

CalcToolHandler.execute evaluates the expression string with eval under an
environment binding exactly add, subtract, multiply and divide.  The subset
of that language the server documents and the claims exercise is a single
call of one of the four binders applied to two integer literals; other
strings make eval raise, which the handler converts to an in-band Error
result. -/

/-- The four operations bound in the eval environment of the calculator. -/
inductive CalcOp where
  | add
  | subtract
  | multiply
  | divide
deriving DecidableEq

/-- A recognised calculator expression: one operation applied to two integer
literals. -/
inductive CalcExpr where
  | call (op : CalcOp) (x y : Int)
deriving DecidableEq

/-- A Python value produced by evaluating a calculator expression: an
integer, the true-division of two integers (a host float, kept symbolic),
or the division-by-zero sentinel string returned by the divide lambda. -/
inductive CalcVal where
  | int (n : Int)
  | quot (x y : Int)
  | str (s : String)
deriving DecidableEq

/-- Evaluation of a recognised expression, following the lambdas in the eval
environment: divide returns the string "Division by zero error" when the
divisor is zero and a true-division value otherwise. -/
def evalCalc (e : CalcExpr) : CalcVal :=
  match e with
  | .call .add x y => .int (x + y)
  | .call .subtract x y => .int (x - y)
  | .call .multiply x y => .int (x * y)
  | .call .divide x y => if y = 0 then .str "Division by zero error" else .quot x y

/-- Decimal rendering of the host float x / y with one fractional digit when
exact, used only for divisions no claim inspects; the full float repr of the
host is not modelled. -/
def quotRepr (x y : Int) : String :=
  if y ≠ 0 ∧ y ∣ x then toString (x / y) ++ ".0" else toString x ++ "/" ++ toString y

/-- str of a calculator value. -/
def calcValStr (v : CalcVal) : String :=
  match v with
  | .int n => toString n
  | .quot x y => quotRepr x y
  | .str s => s

/-- Map a function name to its binding in the eval environment. -/
def calcOpOfName (s : List Char) : Option CalcOp :=
  if s = "add".data then some .add
  else if s = "subtract".data then some .subtract
  else if s = "multiply".data then some .multiply
  else if s = "divide".data then some .divide
  else none

/-- Parse an optionally signed integer literal from a character list. -/
def intOfChars (s : List Char) : Option Int :=
  match s with
  | [] => none
  | '-' :: rest =>
    match intOfChars rest with
    | some n => some (-n)
    | none => none
  | _ =>
    if s.all (fun c => c.isDigit) then
      some (Int.ofNat (s.foldl (fun acc c => acc * 10 + (c.toNat - 48)) 0))
    else none

/-- Trim surrounding spaces from a character list. -/
def trimChars (s : List Char) : List Char :=
  ((s.dropWhile pyIsSpace).reverse.dropWhile pyIsSpace).reverse

/-- Recognise a calculator expression of the form name(lit, lit).  Strings
outside this fragment make the host eval raise (handled by the caller). -/
def readCalcExpr (s : String) : Option CalcExpr :=
  match splitFuel (s.data.length + 1) "(".data s.data with
  | [fname, rest] =>
    match rest.reverse with
    | ')' :: innerRev =>
      match splitFuel (innerRev.length + 1) ",".data innerRev.reverse with
      | [a, b] =>
        match intOfChars (trimChars a), intOfChars (trimChars b) with
        | some x, some y =>
          match calcOpOfName (trimChars fname) with
          | some op => some (.call op x y)
          | none => none
        | _, _ => none
      | _ => none
    | _ => none
  | _ => none

/-! ### Server state, effect trace and environment oracle -/

/-- The textual result wrapper every handler returns (class ToolExecution). -/
structure ToolExecution where
  content : String
deriving DecidableEq

/-- Observable side effects a handler performs, recorded as a trace. -/
inductive Effect where
  | rmtree (path : String)
  | mkdtempDir (path : String)
  | gitClone (url path : String)
  | chdir (path : String)
  | runGitBranch
  | runGitLog
  | runGitRevParse
  | spawnCommand (cmd : String)
  | killChild
  | terminateChild (sid : String)
  | composeDown (dir : String)
  | invokeBody (tool : String)
  | invokeHandler (tool : String)
deriving DecidableEq

/-- The shared repository context (repo_path, repo_name, repo_url fields of
GitHubRepoToolHandler).  The source keeps one copy per handler and resyncs
them after every repository-tool call through update_repo_path; since only
the clone action writes and the sync runs after every such call, the copies
always agree, and the embedding keeps the single shared record.  The url is
kept as a JSON value because the handler assigns the raw argument before
validating its type. -/
structure RepoCtx where
  repoPath : Option String
  repoName : Option String
  repoUrl : Option JValue

/-- A tracked UI preview session (the dict stored in ui_processes): the
child process handle itself is left to the oracle. -/
structure UIProcInfo where
  appPath : String
  url : String
  port : Nat
deriving DecidableEq

/-- A tracked deployment (the dict stored in deploy_processes). -/
structure DeployInfo where
  appType : String
  repoPath : String
  deployTime : String
deriving DecidableEq

/-- The mutable state of one server process: the shared repository context,
the process-wide current working directory, and the two session tables
(keyed maps modelled as functions from ids). -/
structure SState where
  repo : RepoCtx
  cwd : String
  uiProcs : String → Option UIProcInfo
  deployProcs : String → Option DeployInfo

/-- Possible outcomes of the awaited shell command of the command-execution
tool: completion with an exit status and captured streams, or expiry of the
wall-clock timeout. -/
inductive CmdOutcome where
  | timedOut
  | done (rc : Int) (out err : String)
deriving DecidableEq

/-- Per-request environment oracle: every interaction with the host system
during the handling of one input line is predetermined by one record, so
theorems quantify over all environment behaviours.  An Except.error value
means the corresponding host call raised, carrying the exception text. -/
structure StepWorld where
  timeNow : String
  pathExists : String → Bool
  isFile : String → Bool
  mkdtempPath : String
  cloneResult : Except String Unit
  walkListing : Except String String
  readFileResult : Except String String
  repoStats : Except String (Nat × Nat)
  branchRun : Except String String
  logRun : Except String String
  cmdSpawn : Except String CmdOutcome
  uiScanContent : ToolExecution
  uiLaunchContent : ToolExecution
  uiLaunchReg : Option (String × UIProcInfo)
  uiPollRunning : Bool
  uiTerminate : Except String Unit
  uiWaitTimesOut : Bool
  uiKill : Except String Unit
  codeGitCheck : Except String Int
  codeSummarize : ToolExecution
  codeAnalyze : ToolExecution
  codeFind : ToolExecution
  codeDeps : ToolExecution
  deployAuto : ToolExecution
  deployGenFiles : ToolExecution
  deployRun : ToolExecution
  deployReg : Option (String × DeployInfo)
  deployDown : Except String (Int × String × String)

/-- Result of one handler invocation: the state after the call, the trace of
effects performed, and either a returned ToolExecution or a propagated
exception message. -/
structure HandlerOut where
  state : SState
  effects : List Effect
  outcome : Except String ToolExecution

/-- The TypeError message of os.path.join applied to a non-path value. -/
def joinTypeErr (v : JValue) : String :=
  "expected str, bytes or os.PathLike object, not " ++ pyTypeName v

/-- The FileNotFoundError text of os.chdir on a missing directory. -/
def chdirErrMsg (p : String) : String :=
  "[Errno 2] No such file or directory: " ++ sq ++ p ++ sq

/-- Two-decimal rendering of num/den, a round-half-up approximation of the
2f float formatting of the host (no claim inspects these digits). -/
def twoDec (num den : Nat) : String :=
  let scaled := (num * 100 + den / 2) / den
  toString (scaled / 100) ++ "." ++
    (if scaled % 100 < 10 then "0" ++ toString (scaled % 100) else toString (scaled % 100))

/-- The size line of get_repo_info: megabytes and kilobytes to two
decimals. -/
def sizeRepr (total : Nat) : String :=
  twoDec total (1024 * 1024) ++ " MB (" ++ twoDec total 1024 ++ " KB)"

/-! ### Tool handlers -/

/-- TimeToolHandler.execute: the formatted current time. -/
def timeExecute (w : StepWorld) (st : SState) (_params : JValue) : HandlerOut :=
  ⟨st, [], .ok ⟨w.timeNow⟩⟩

/-- Stand-in for the text of the exception eval raises on a string outside
the recognised fragment or on a non-string argument; the host exception
message is not modelled and no claim inspects it. -/
def calcEvalErr : String := "unsupported calculator expression"

/-- CalcToolHandler.execute: evaluate the expression under the environment
of the four arithmetic binders; any raise is converted to an in-band Error
result. -/
def calcExecute (st : SState) (params : JValue) : HandlerOut :=
  match params with
  | .obj _ =>
    match (jGet params "expression").getD (.str "") with
    | .str s =>
      match readCalcExpr s with
      | some e => ⟨st, [], .ok ⟨calcValStr (evalCalc e)⟩⟩
      | none => ⟨st, [], .ok ⟨"Error: " ++ calcEvalErr⟩⟩
    | _ => ⟨st, [], .ok ⟨"Error: " ++ calcEvalErr⟩⟩
  | _ => ⟨st, [], .error (noGetAttrMsg params)⟩

/-- The mock weather table of WeatherToolHandler. -/
def weatherData : List (String × String × String) :=
  [("New York", "Sunny", "72°F"),
   ("London", "Rainy", "60°F"),
   ("Tokyo", "Cloudy", "65°F"),
   ("Sydney", "Partly Cloudy", "70°F"),
   ("Paris", "Clear", "68°F")]

/-- WeatherToolHandler.execute. -/
def weatherExecute (st : SState) (params : JValue) : HandlerOut :=
  match params with
  | .obj _ =>
    let locV := (jGet params "location").getD (.str "")
    if pyTruthy locV = false then
      ⟨st, [], .ok ⟨"Error: Location not provided"⟩⟩
    else
      match locV with
      | .str loc =>
        match weatherData.lookup loc with
        | some (cond, temp) =>
          ⟨st, [], .ok ⟨"Weather in " ++ loc ++ ": " ++ cond ++ ", " ++ temp⟩⟩
        | none => ⟨st, [], .ok ⟨"No weather data available for " ++ loc⟩⟩
      | v => ⟨st, [], .ok ⟨"No weather data available for " ++ pyStrOf v⟩⟩
  | _ => ⟨st, [], .error (noGetAttrMsg params)⟩

/-- GitHubRepoToolHandler.execute: the clone, list_files, read_file and
get_repo_info actions. -/
def githubExecute (w : StepWorld) (st : SState) (params : JValue) : HandlerOut :=
  match params with
  | .obj _ =>
    let action := (jGet params "action").getD (.str "")
    if pyEqStr action "clone" then
      let urlV := (jGet params "repo_url").getD (.str "")
      if pyTruthy urlV = false then
        ⟨st, [], .ok ⟨"Error: Repository URL not provided"⟩⟩
      else
        let cleanup : List Effect :=
          match st.repo.repoPath with
          | some p => if (p != "") && w.pathExists p then [.rmtree p] else []
          | none => []
        match urlV with
        | .str url =>
          let name := pyReplace (lastSegment url) ".git" ""
          let st' := { st with repo := ⟨some w.mkdtempPath, some name, some (.str url)⟩ }
          let effs := cleanup ++ [.mkdtempDir w.mkdtempPath, .gitClone url w.mkdtempPath]
          match w.cloneResult with
          | .ok _ =>
            ⟨st', effs,
             .ok ⟨"Successfully cloned repository: " ++ url ++ " to " ++ w.mkdtempPath⟩⟩
          | .error e => ⟨st', effs, .ok ⟨"Error cloning repository: " ++ e⟩⟩
        | v =>
          -- a truthy non-string URL: path and url are assigned, then the
          -- handler raises AttributeError at repo_url.split before the name
          -- assignment
          ⟨{ st with repo := { st.repo with repoPath := some w.mkdtempPath, repoUrl := some v } },
           cleanup ++ [.mkdtempDir w.mkdtempPath],
           .error (sq ++ pyTypeName v ++ sq ++ " object has no attribute " ++ sq ++ "split" ++ sq)⟩
    else if pyEqStr action "list_files" then
      if pyTruthyOS st.repo.repoPath = false then
        ⟨st, [], .ok ⟨"Error: No repository is currently cloned"⟩⟩
      else
        let repoPath := st.repo.repoPath.getD ""
        let pathV := (jGet params "path").getD (.str "")
        let pathArg : Except String (Option String) :=
          match pathV with
          | .str p => .ok (if p != "" then some p else none)
          | v => if pyTruthy v then .error (joinTypeErr v) else .ok none
        match pathArg with
        | .error m => ⟨st, [], .error m⟩
        | .ok pOpt =>
          let fullPath := match pOpt with | some p => joinPath repoPath p | none => repoPath
          if w.pathExists fullPath = false then
            ⟨st, [],
             .ok ⟨"Error: Path " ++ pyStrOf pathV ++ " does not exist in the repository"⟩⟩
          else
            match w.walkListing with
            | .ok listing =>
              ⟨st, [],
               .ok ⟨"Files in repository " ++ pyStrOS st.repo.repoName ++ ":\n\n" ++ listing⟩⟩
            | .error e => ⟨st, [], .ok ⟨"Error listing files: " ++ e⟩⟩
    else if pyEqStr action "read_file" then
      if pyTruthyOS st.repo.repoPath = false then
        ⟨st, [], .ok ⟨"Error: No repository is currently cloned"⟩⟩
      else
        let fpV := (jGet params "file_path").getD (.str "")
        if pyTruthy fpV = false then
          ⟨st, [], .ok ⟨"Error: File path not provided"⟩⟩
        else
          match fpV with
          | .str fp =>
            let fullPath := joinPath (st.repo.repoPath.getD "") fp
            if (w.pathExists fullPath && w.isFile fullPath) = false then
              ⟨st, [], .ok ⟨"Error: File " ++ fp ++ " does not exist in the repository"⟩⟩
            else
              match w.readFileResult with
              | .ok c =>
                ⟨st, [], .ok ⟨"Contents of " ++ fp ++ ":\n\n```\n" ++ c ++ "\n```"⟩⟩
              | .error e => ⟨st, [], .ok ⟨"Error reading file: " ++ e⟩⟩
          | v => ⟨st, [], .error (joinTypeErr v)⟩
    else if pyEqStr action "get_repo_info" then
      if pyTruthyOS st.repo.repoPath = false then
        ⟨st, [], .ok ⟨"Error: No repository is currently cloned"⟩⟩
      else
        let repoPath := st.repo.repoPath.getD ""
        match w.repoStats with
        | .error e => ⟨st, [], .ok ⟨"Error getting repository information: " ++ e⟩⟩
        | .ok stats =>
          if w.pathExists repoPath = false then
            -- os.chdir raised before the directory changed
            ⟨st, [], .ok ⟨"Error getting repository information: " ++ chdirErrMsg repoPath⟩⟩
          else
            let stIn := { st with cwd := repoPath }
            match w.branchRun with
            | .error e =>
              -- the exception is caught and reported, but the working
              -- directory is not restored on this path
              ⟨stIn, [.chdir repoPath, .runGitBranch],
               .ok ⟨"Error getting repository information: " ++ e⟩⟩
            | .ok branchOut =>
              match w.logRun with
              | .error e =>
                ⟨stIn, [.chdir repoPath, .runGitBranch, .runGitLog],
                 .ok ⟨"Error getting repository information: " ++ e⟩⟩
              | .ok logOut =>
                let info := "Repository Information:\n\n" ++
                  "name: " ++ pyStrOS st.repo.repoName ++ "\n" ++
                  "url: " ++ pyStrOpt st.repo.repoUrl ++ "\n" ++
                  "branch: " ++ pyStrip branchOut ++ "\n" ++
                  "last_commit: " ++ pyStrip logOut ++ "\n" ++
                  "file_count: " ++ toString stats.1 ++ "\n" ++
                  "size: " ++ sizeRepr stats.2
                ⟨{ stIn with cwd := st.cwd },
                 [.chdir repoPath, .runGitBranch, .runGitLog, .chdir st.cwd],
                 .ok ⟨info⟩⟩
    else
      ⟨st, [],
       .ok ⟨"Error: Unknown action " ++ sq ++ pyStrOf action ++ sq ++
            ". Available actions: clone, list_files, read_file, get_repo_info"⟩⟩
  | _ => ⟨st, [], .error (noGetAttrMsg params)⟩

/-- The timeout argument of the command-execution tool with its default of
30 seconds: params.get with default. -/
def cmdTimeout (params : JValue) : JValue :=
  (jGet params "timeout").getD (.num 30)

/-- CommandExecutionToolHandler.execute. -/
def commandExecute (w : StepWorld) (st : SState) (params : JValue) : HandlerOut :=
  match params with
  | .obj _ =>
    let cmdV := (jGet params "command").getD (.str "")
    if pyTruthy cmdV = false then
      ⟨st, [], .ok ⟨"Error: Command not provided"⟩⟩
    else
      let timeoutV := cmdTimeout params
      match w.cmdSpawn with
      | .error e =>
        ⟨st, [.spawnCommand (pyStrOf cmdV)], .ok ⟨"Error executing command: " ++ e⟩⟩
      | .ok .timedOut =>
        ⟨st, [.spawnCommand (pyStrOf cmdV), .killChild],
         .ok ⟨"Error: Command execution timed out after " ++ pyStrOf timeoutV ++ " seconds"⟩⟩
      | .ok (.done rc out err) =>
        if rc != 0 then
          ⟨st, [.spawnCommand (pyStrOf cmdV)],
           .ok ⟨"Command execution failed with exit code " ++ toString rc ++
                ":\n\nSTDOUT:\n" ++ out ++ "\n\nSTDERR:\n" ++ err⟩⟩
        else
          ⟨st, [.spawnCommand (pyStrOf cmdV)],
           .ok ⟨"Command executed successfully:\n\nSTDOUT:\n" ++ out ++
                (if pyStrip err != "" then "\n\nSTDERR:\n" ++ err else "")⟩⟩
  | _ => ⟨st, [], .error (noGetAttrMsg params)⟩

/-- The terminate, bounded wait, force-kill sequence of the stop_ui action,
with each step resolved by the oracle; an error value is a raised
exception. -/
def uiStopAttempt (w : StepWorld) : Except String Unit :=
  if w.uiPollRunning then
    match w.uiTerminate with
    | .error e => .error e
    | .ok _ => if w.uiWaitTimesOut then w.uiKill else .ok ()
  else .ok ()

/-- UIGeneratorToolHandler.execute (the unwrapped body): the scan_apps and
generate_ui launch internals are uninterpreted oracle outcomes (they spawn
and probe child processes), while the session table manipulation of
generate_ui registration and stop_ui is concrete. -/
def uiExecute (w : StepWorld) (st : SState) (params : JValue) : HandlerOut :=
  match params with
  | .obj _ =>
    let action := (jGet params "action").getD (.str "")
    if pyTruthyOS st.repo.repoPath = false then
      ⟨st, [],
       .ok ⟨"Error: No repository is currently cloned. Please clone a repository first."⟩⟩
    else if pyEqStr action "scan_apps" then
      ⟨st, [], .ok w.uiScanContent⟩
    else if pyEqStr action "generate_ui" then
      let apV := (jGet params "app_path").getD (.str "")
      if pyTruthy apV = false then
        ⟨st, [], .ok ⟨"Error: Application path not provided"⟩⟩
      else
        match apV with
        | .str ap =>
          let full := joinPath (st.repo.repoPath.getD "") ap
          if w.pathExists full = false then
            ⟨st, [],
             .ok ⟨"Error: Application path " ++ sq ++ ap ++ sq ++ " does not exist"⟩⟩
          else if ap.endsWith ".py" || ap.endsWith ".js" || ap.endsWith ".html" then
            let st' :=
              match w.uiLaunchReg with
              | some reg =>
                { st with uiProcs := fun k => if k = reg.1 then some reg.2 else st.uiProcs k }
              | none => st
            ⟨st', [], .ok w.uiLaunchContent⟩
          else
            ⟨st, [],
             .ok ⟨"Unsupported application type for " ++ ap ++
                  ". Currently supporting .py, .js, and .html files."⟩⟩
        | v => ⟨st, [], .error (joinTypeErr v)⟩
    else if pyEqStr action "stop_ui" then
      match (jGet params "session_id").getD (.str "") with
      | .str sid =>
        if (sid != "") && (st.uiProcs sid).isSome then
          match uiStopAttempt w with
          | .error e =>
            ⟨st, (if w.uiPollRunning then [.terminateChild sid] else []),
             .ok ⟨"Error stopping UI: " ++ e⟩⟩
          | .ok _ =>
            ⟨{ st with uiProcs := fun k => if k = sid then none else st.uiProcs k },
             (if w.uiPollRunning then [.terminateChild sid] else []),
             .ok ⟨"UI session " ++ sid ++ " has been stopped"⟩⟩
        else ⟨st, [], .ok ⟨"Error: Invalid or unknown session ID"⟩⟩
      | _ => ⟨st, [], .ok ⟨"Error: Invalid or unknown session ID"⟩⟩
    else
      ⟨st, [],
       .ok ⟨"Error: Unknown action " ++ sq ++ pyStrOf action ++ sq ++
            ". Available actions: scan_apps, generate_ui, stop_ui"⟩⟩
  | _ => ⟨st, [], .error (noGetAttrMsg params)⟩

/-- CodeAnalysisToolHandler.execute (the unwrapped body): the four read-only
aggregation actions are uninterpreted oracle outcomes; the action dispatch
and its guards are concrete. -/
def codeExecute (w : StepWorld) (st : SState) (params : JValue) : HandlerOut :=
  match params with
  | .obj _ =>
    let action := (jGet params "action").getD (.str "")
    if pyTruthyOS st.repo.repoPath = false then
      ⟨st, [],
       .ok ⟨"Error: No repository is currently cloned. Please clone a repository first."⟩⟩
    else if pyEqStr action "summarize_repo" then ⟨st, [], .ok w.codeSummarize⟩
    else if pyEqStr action "analyze_code" then ⟨st, [], .ok w.codeAnalyze⟩
    else if pyEqStr action "find_patterns" then ⟨st, [], .ok w.codeFind⟩
    else if pyEqStr action "dependency_analysis" then ⟨st, [], .ok w.codeDeps⟩
    else
      ⟨st, [],
       .ok ⟨"Error: Unknown action " ++ sq ++ pyStrOf action ++ sq ++
            ". Available actions: summarize_repo, analyze_code, find_patterns, dependency_analysis"⟩⟩
  | _ => ⟨st, [], .error (noGetAttrMsg params)⟩

/-- AutoDeployToolHandler._stop_deployment for a tracked deployment: change
into the recorded repository directory, run the teardown command, restore
the directory, and remove the tracking entry only on a zero exit status. -/
def stopDeployment (w : StepWorld) (st : SState) (did : String) : HandlerOut :=
  match st.deployProcs did with
  | none => ⟨st, [], .ok ⟨"Error: Invalid or unknown deployment ID"⟩⟩
  | some info =>
    if w.pathExists info.repoPath = false then
      -- os.chdir raised; the except clause restores the (unchanged)
      -- directory and reports the exception in-band
      ⟨st, [], .ok ⟨"Error stopping deployment: " ++ chdirErrMsg info.repoPath⟩⟩
    else
      match w.deployDown with
      | .error e =>
        -- spawn or communicate raised; the except clause restores the
        -- directory and reports the exception in-band
        ⟨st, [.chdir info.repoPath, .composeDown info.repoPath, .chdir st.cwd],
         .ok ⟨"Error stopping deployment: " ++ e⟩⟩
      | .ok res =>
        if res.1 != 0 then
          -- the directory is restored before the exit-status check, and the
          -- tracking entry is kept
          ⟨st, [.chdir info.repoPath, .composeDown info.repoPath, .chdir st.cwd],
           .ok ⟨"Error stopping deployment:\n\n" ++ res.2.2⟩⟩
        else
          ⟨{ st with deployProcs := fun k => if k = did then none else st.deployProcs k },
           [.chdir info.repoPath, .composeDown info.repoPath, .chdir st.cwd],
           .ok ⟨"\nDeployment " ++ did ++ " stopped successfully!\n\n" ++ res.2.1 ++
                "\n            "⟩⟩

/-- AutoDeployToolHandler.execute (the unwrapped body): detection, file
generation and the container build of autodeploy, generate_deployment_files
and deploy are uninterpreted oracle outcomes (with an oracle-chosen tracking
registration); the stop action is concrete. -/
def deployExecute (w : StepWorld) (st : SState) (params : JValue) : HandlerOut :=
  match params with
  | .obj _ =>
    let action := (jGet params "action").getD (.str "")
    if pyTruthyOS st.repo.repoPath = false then
      ⟨st, [],
       .ok ⟨"Error: No repository is currently cloned. Please clone a repository first."⟩⟩
    else if pyEqStr action "autodeploy" then
      let st' :=
        match w.deployReg with
        | some reg =>
          { st with deployProcs := fun k => if k = reg.1 then some reg.2 else st.deployProcs k }
        | none => st
      ⟨st', [], .ok w.deployAuto⟩
    else if pyEqStr action "generate_deployment_files" then
      let atV := (jGet params "app_type").getD (.str "")
      let epV := (jGet params "entry_point").getD (.str "")
      if pyTruthy atV = false then
        ⟨st, [], .ok ⟨"Error: Application type not provided. Valid types: python, node, static"⟩⟩
      else if pyTruthy epV = false then
        ⟨st, [],
         .ok ⟨"Error: Entry point not provided (e.g., app.py, server.js, index.html)"⟩⟩
      else ⟨st, [], .ok w.deployGenFiles⟩
    else if pyEqStr action "deploy" then
      let atV := (jGet params "app_type").getD (.str "")
      let epV := (jGet params "entry_point").getD (.str "")
      if pyTruthy atV = false then
        ⟨st, [], .ok ⟨"Error: Application type not provided. Valid types: python, node, static"⟩⟩
      else if pyTruthy epV = false then
        ⟨st, [],
         .ok ⟨"Error: Entry point not provided (e.g., app.py, server.js, index.html)"⟩⟩
      else
        let st' :=
          match w.deployReg with
          | some reg =>
            { st with deployProcs := fun k => if k = reg.1 then some reg.2 else st.deployProcs k }
          | none => st
        ⟨st', [], .ok w.deployRun⟩
    else if pyEqStr action "stop" then
      match (jGet params "deploy_id").getD (.str "") with
      | .str did =>
        if (did != "") && (st.deployProcs did).isSome then
          stopDeployment w st did
        else ⟨st, [], .ok ⟨"Error: Invalid or unknown deployment ID"⟩⟩
      | _ => ⟨st, [], .ok ⟨"Error: Invalid or unknown deployment ID"⟩⟩
    else
      ⟨st, [],
       .ok ⟨"Error: Unknown action " ++ sq ++ pyStrOf action ++ sq ++
            ". Available actions: autodeploy, generate_deployment_files, deploy, stop"⟩⟩
  | _ => ⟨st, [], .error (noGetAttrMsg params)⟩

/-! ### The validation wrappers installed in main -/

/-- The repository-liveness test of the validation wrappers: a truthy
repo_path that exists on disk. -/
def repoPathLive (w : StepWorld) (st : SState) : Bool :=
  match st.repo.repoPath with
  | some p => (p != "") && w.pathExists p
  | none => false

/-- The shared error text of all three validation wrappers. -/
def noValidRepoMsg : String :=
  "Error: No valid repository is currently cloned. Please clone a repository first."

/-- The wrapper installed around GitHubRepoToolHandler.execute: it resyncs
the shared repository fields of the other handlers after the call, which is
the identity on the single shared context of this embedding. -/
def githubWrapped (w : StepWorld) (st : SState) (params : JValue) : HandlerOut :=
  githubExecute w st params

/-- The validation wrapper around UIGeneratorToolHandler.execute. -/
def uiWrapped (w : StepWorld) (st : SState) (params : JValue) : HandlerOut :=
  if repoPathLive w st = false then ⟨st, [], .ok ⟨noValidRepoMsg⟩⟩
  else
    let o := uiExecute w st params
    ⟨o.state, .invokeBody "ui_generator" :: o.effects, o.outcome⟩

/-- The validation wrapper around AutoDeployToolHandler.execute. -/
def deployWrapped (w : StepWorld) (st : SState) (params : JValue) : HandlerOut :=
  if repoPathLive w st = false then ⟨st, [], .ok ⟨noValidRepoMsg⟩⟩
  else
    let o := deployExecute w st params
    ⟨o.state, .invokeBody "auto_deploy" :: o.effects, o.outcome⟩

/-- The validation wrapper around CodeAnalysisToolHandler.execute: after the
liveness test it additionally verifies a git working tree by changing into
the repository and running the version-control probe; a raised probe leaves
the working directory unrestored. -/
def codeWrapped (w : StepWorld) (st : SState) (params : JValue) : HandlerOut :=
  if repoPathLive w st = false then ⟨st, [], .ok ⟨noValidRepoMsg⟩⟩
  else
    let p := st.repo.repoPath.getD ""
    match w.codeGitCheck with
    | .error _ =>
      ⟨{ st with cwd := p }, [.chdir p, .runGitRevParse],
       .ok ⟨"Error: Could not verify if the current path is a git repository. Please clone a repository first."⟩⟩
    | .ok rc =>
      if rc != 0 then
        ⟨st, [.chdir p, .runGitRevParse, .chdir st.cwd],
         .ok ⟨"Error: The current path is not a valid git repository. Please clone a repository first."⟩⟩
      else
        let o := codeExecute w st params
        ⟨o.state,
         [.chdir p, .runGitRevParse, .chdir st.cwd, .invokeBody "code_analysis"] ++ o.effects,
         o.outcome⟩

/-! ### Tool registry and dispatcher -/

/-- The handler bound to each registered tool. -/
inductive HandlerKind where
  | time
  | calc
  | weather
  | github
  | command
  | uiGen
  | codeAnalysis
  | autoDeploy
deriving DecidableEq

/-- A registered tool: name, description, JSON-Schema-like input schema, and
the bound handler. -/
structure MTool where
  name : String
  description : String
  inputSchema : JValue
  handler : HandlerKind

/-- Wrap a string in single quotes, as the schema description texts do. -/
def qw (s : String) : String := sq ++ s ++ sq

/-- The eight tools of main, in registration order, with the input schemas
transcribed from the source. -/
def serverTools : List MTool :=
  [⟨"get_time", "Get the current time",
    .obj [("type", .str "object"), ("properties", .obj []), ("required", .arr [])],
    .time⟩,
   ⟨"calculate", "Perform a simple calculation",
    .obj [("type", .str "object"),
          ("properties", .obj
            [("expression", .obj
              [("type", .str "string"),
               ("description", .str ("The expression to calculate (e.g., " ++ qw "add(3, 4)" ++
                 ", " ++ qw "subtract(5, 2)" ++ ", " ++ qw "multiply(3, 3)" ++ ", " ++
                 qw "divide(10, 2)" ++ ")"))])]),
          ("required", .arr [.str "expression"])],
    .calc⟩,
   ⟨"get_weather", "Get weather information for a location",
    .obj [("type", .str "object"),
          ("properties", .obj
            [("location", .obj
              [("type", .str "string"),
               ("description", .str ("The location to get weather for (e.g., " ++
                 qw "New York" ++ ", " ++ qw "London" ++ ", " ++ qw "Tokyo" ++ ", " ++
                 qw "Sydney" ++ ", " ++ qw "Paris" ++ ")"))])]),
          ("required", .arr [.str "location"])],
    .weather⟩,
   ⟨"github_repo", "Clone and analyze GitHub repositories",
    .obj [("type", .str "object"),
          ("properties", .obj
            [("action", .obj
              [("type", .str "string"),
               ("description", .str "The action to perform"),
               ("enum", .arr [.str "clone", .str "list_files", .str "read_file",
                              .str "get_repo_info"])]),
             ("repo_url", .obj
              [("type", .str "string"),
               ("description", .str "The URL of the GitHub repository")]),
             ("path", .obj
              [("type", .str "string"),
               ("description", .str "The path to list files from (for list_files action)")]),
             ("file_path", .obj
              [("type", .str "string"),
               ("description", .str "The path of the file to read (for read_file action)")])]),
          ("required", .arr [.str "action"])],
    .github⟩,
   ⟨"execute_command", "Execute a command in the system shell and return the result",
    .obj [("type", .str "object"),
          ("properties", .obj
            [("command", .obj
              [("type", .str "string"),
               ("description", .str "The command to execute")]),
             ("working_dir", .obj
              [("type", .str "string"),
               ("description", .str "The working directory to execute the command in (optional)")]),
             ("timeout", .obj
              [("type", .str "number"),
               ("description", .str "Timeout in seconds (default: 30)")])]),
          ("required", .arr [.str "command"])],
    .command⟩,
   ⟨"ui_generator", "Generate and run UI for applications in the repository",
    .obj [("type", .str "object"),
          ("properties", .obj
            [("action", .obj
              [("type", .str "string"),
               ("description", .str "The action to perform"),
               ("enum", .arr [.str "scan_apps", .str "generate_ui", .str "stop_ui"])]),
             ("app_path", .obj
              [("type", .str "string"),
               ("description", .str "The path to the application entry point (for generate_ui action)")]),
             ("session_id", .obj
              [("type", .str "string"),
               ("description", .str "The session ID of a running UI (for stop_ui action)")])]),
          ("required", .arr [.str "action"])],
    .uiGen⟩,
   ⟨"code_analysis", "Analyze code in the repository",
    .obj [("type", .str "object"),
          ("properties", .obj
            [("action", .obj
              [("type", .str "string"),
               ("description", .str "The action to perform"),
               ("enum", .arr [.str "summarize_repo", .str "analyze_code",
                              .str "find_patterns", .str "dependency_analysis"])]),
             ("path", .obj
              [("type", .str "string"),
               ("description", .str "The path to analyze (for analyze_code and find_patterns actions)")]),
             ("pattern", .obj
              [("type", .str "string"),
               ("description", .str "The pattern to search for (for find_patterns action)")]),
             ("extensions", .obj
              [("type", .str "string"),
               ("description", .str ("Comma-separated list of file extensions to search (for find_patterns action, e.g., " ++
                 qw "py,js,html" ++ ")"))])]),
          ("required", .arr [.str "action"])],
    .codeAnalysis⟩,
   ⟨"auto_deploy", "Deploy applications from the repository",
    .obj [("type", .str "object"),
          ("properties", .obj
            [("action", .obj
              [("type", .str "string"),
               ("description", .str "The action to perform"),
               ("enum", .arr [.str "autodeploy", .str "generate_deployment_files",
                              .str "deploy", .str "stop"])]),
             ("app_type", .obj
              [("type", .str "string"),
               ("description", .str "The type of application (python, node, static)")]),
             ("entry_point", .obj
              [("type", .str "string"),
               ("description", .str "The entry point file (e.g., app.py, server.js, index.html)")]),
             ("framework", .obj
              [("type", .str "string"),
               ("description", .str "The framework used (e.g., flask, react, express)")]),
             ("deploy_id", .obj
              [("type", .str "string"),
               ("description", .str "The ID of a running deployment (for stop action)")])]),
          ("required", .arr [.str "action"])],
    .autoDeploy⟩]

/-- The tool summary exposed in handshake and listing responses: name,
description and schema, never the handler. -/
structure ToolSummary where
  name : String
  description : String
  inputSchema : JValue

/-- The summaries of the registered tools, in registration order. -/
def toolSummaries : List ToolSummary :=
  serverTools.map (fun t => ⟨t.name, t.description, t.inputSchema⟩)

/-- Dispatch a tool invocation to the handler main binds to it (the wrapped
variants where main installs wrappers). -/
def execHandler (w : StepWorld) (st : SState) (k : HandlerKind) (args : JValue) : HandlerOut :=
  match k with
  | .time => timeExecute w st args
  | .calc => calcExecute st args
  | .weather => weatherExecute st args
  | .github => githubWrapped w st args
  | .command => commandExecute w st args
  | .uiGen => uiWrapped w st args
  | .codeAnalysis => codeWrapped w st args
  | .autoDeploy => deployWrapped w st args

/-- A response object written to the output channel, one JSON line each. -/
inductive Response where
  | initializeResult (supportedVersions : List String) (tools : List ToolSummary)
  | listToolsResult (tools : List ToolSummary)
  | executeToolResult (content : String)
  | error (message : String)

/-- The type field of a response. -/
def respType (r : Response) : String :=
  match r with
  | .initializeResult _ _ => "initialize_result"
  | .listToolsResult _ => "list_tools_result"
  | .executeToolResult _ => "execute_tool_result"
  | .error _ => "error"

/-- One iteration of the dispatch loop on a successfully parsed JSON value:
route on the type field, resolve execute_tool in the registry, and convert
any exception propagating out of a handler to an error response.  Returns
the state after the iteration, the single response written, and the trace of
effects (with invokeHandler marking the dispatch into a resolved tool). -/
def handleRequest (w : StepWorld) (st : SState) (v : JValue) : SState × Response × List Effect :=
  match v with
  | .obj _ =>
    if pyEqStrOpt (jGet v "type") "initialize" then
      (st, .initializeResult ["0.1.0"] toolSummaries, [])
    else if pyEqStrOpt (jGet v "type") "list_tools" then
      (st, .listToolsResult toolSummaries, [])
    else if pyEqStrOpt (jGet v "type") "execute_tool" then
      let nameV := jGet v "name"
      let args := (jGet v "arguments").getD (.obj [])
      match serverTools.find? (fun t => pyEqStrOpt nameV t.name) with
      | some t =>
        let o := execHandler w st t.handler args
        match o.outcome with
        | .ok r => (o.state, .executeToolResult r.content, .invokeHandler t.name :: o.effects)
        | .error e => (o.state, .error ("Server error: " ++ e), .invokeHandler t.name :: o.effects)
      | none =>
        (st, .error ("Tool " ++ sq ++ pyStrOpt nameV ++ sq ++ " not found"), [])
    else
      (st, .error ("Unknown request type: " ++ pyStrOpt (jGet v "type")), [])
  | _ =>
    -- request.get raises on a non-dict JSON value; the generic except
    -- converts it to an error response
    (st, .error ("Server error: " ++ noGetAttrMsg v), [])

/-- One line received on the input channel, by its json.loads outcome: a
parsed JSON value, or a decode failure carrying the exception text. -/
inductive Line where
  | malformed (msg : String)
  | parsed (v : JValue)

/-- One full iteration of the dispatch loop for one input line: a decode
failure becomes one error response, a parsed value is dispatched for exactly
one response. -/
def stepLine (w : StepWorld) (st : SState) (l : Line) : SState × List Response × List Effect :=
  match l with
  | .malformed m => (st, [.error ("Invalid JSON: " ++ m)], [])
  | .parsed v =>
    let o := handleRequest w st v
    (o.1, [o.2.1], o.2.2)

/-- The dispatch loop of main: consume the input lines in order (the list
ends where the input stream closes, which is the only way the loop ends in
this sequential model; external task cancellation is not modelled), each
line paired with the environment oracle for its handling, and collect the
responses in emission order. -/
def runLoop (st : SState) (ins : List (StepWorld × Line)) : SState × List Response :=
  match ins with
  | [] => (st, [])
  | (w, l) :: rest =>
    let o := stepLine w st l
    let r := runLoop o.1 rest
    (r.1, o.2.1 ++ r.2)

/-- A concrete initial server state for witnesses: no repository context,
empty session tables. -/
def initState : SState :=
  ⟨⟨none, none, none⟩, "/srv", fun _ => none, fun _ => none⟩

/-- A concrete environment oracle for witnesses. -/
def defaultWorld : StepWorld where
  timeNow := "2026-01-01 00:00:00"
  pathExists := fun _ => true
  isFile := fun _ => true
  mkdtempPath := "/tmp/t1"
  cloneResult := .ok ()
  walkListing := .ok ""
  readFileResult := .ok ""
  repoStats := .ok (0, 0)
  branchRun := .ok "main"
  logRun := .ok "abc - msg"
  cmdSpawn := .ok (.done 0 "" "")
  uiScanContent := ⟨""⟩
  uiLaunchContent := ⟨""⟩
  uiLaunchReg := none
  uiPollRunning := true
  uiTerminate := .ok ()
  uiWaitTimesOut := false
  uiKill := .ok ()
  codeGitCheck := .ok 0
  codeSummarize := ⟨""⟩
  codeAnalyze := ⟨""⟩
  codeFind := ⟨""⟩
  codeDeps := ⟨""⟩
  deployAuto := ⟨""⟩
  deployGenFiles := ⟨""⟩
  deployRun := ⟨""⟩
  deployReg := none
  deployDown := .ok (0, "", "")

/-! ### Shared request builders and helper lemmas -/

/-- An execute_tool request line for a named tool with given arguments. -/
def execReq (name : String) (args : JValue) : JValue :=
  .obj [("type", .str "execute_tool"), ("name", .str name), ("arguments", args)]

/-- The registered tool names, in registration order. -/
def registeredToolNames : List String :=
  serverTools.map (fun t => t.name)

/-- The calculate request of the end-to-end scenario. -/
def calcAddReq : JValue :=
  execReq "calculate" (.obj [("expression", .str "add(3,4)")])

/-- The response and trace the dispatcher builds around one handler result:
a returned ToolExecution becomes an execute_tool_result, a propagated
exception becomes a Server error response. -/
def dispatchOut (name : String) (o : HandlerOut) : SState × Response × List Effect :=
  match o.outcome with
  | .ok r => (o.state, .executeToolResult r.content, .invokeHandler name :: o.effects)
  | .error e => (o.state, .error ("Server error: " ++ e), .invokeHandler name :: o.effects)

/-- Dispatch of an execute_tool request for calculate. -/
theorem handleRequest_calculate (w : StepWorld) (st : SState) (args : JValue) :
    handleRequest w st (execReq "calculate" args) =
      dispatchOut "calculate" (calcExecute st args) := rfl

/-- Dispatch of an execute_tool request for execute_command. -/
theorem handleRequest_command (w : StepWorld) (st : SState) (args : JValue) :
    handleRequest w st (execReq "execute_command" args) =
      dispatchOut "execute_command" (commandExecute w st args) := rfl

/-- Dispatch of an execute_tool request for github_repo. -/
theorem handleRequest_github (w : StepWorld) (st : SState) (args : JValue) :
    handleRequest w st (execReq "github_repo" args) =
      dispatchOut "github_repo" (githubWrapped w st args) := rfl

/-- Dispatch of an execute_tool request for ui_generator. -/
theorem handleRequest_ui (w : StepWorld) (st : SState) (args : JValue) :
    handleRequest w st (execReq "ui_generator" args) =
      dispatchOut "ui_generator" (uiWrapped w st args) := rfl

/-- Dispatch of an execute_tool request for code_analysis. -/
theorem handleRequest_code (w : StepWorld) (st : SState) (args : JValue) :
    handleRequest w st (execReq "code_analysis" args) =
      dispatchOut "code_analysis" (codeWrapped w st args) := rfl

/-- Dispatch of an execute_tool request for auto_deploy. -/
theorem handleRequest_deploy (w : StepWorld) (st : SState) (args : JValue) :
    handleRequest w st (execReq "auto_deploy" args) =
      dispatchOut "auto_deploy" (deployWrapped w st args) := rfl

/-- Every iteration of the dispatch loop writes exactly one response line,
whichever branch handles the line. -/
theorem stepLine_singleton (w : StepWorld) (st : SState) (l : Line) :
    (stepLine w st l).2.1.length = 1 := by
  cases l with
  | malformed m => rfl
  | parsed v => rfl

/-- The loop emits as many responses as it consumes lines. -/
theorem runLoop_length (st : SState) (ins : List (StepWorld × Line)) :
    (runLoop st ins).2.length = ins.length := by
  induction ins generalizing st with
  | nil => rfl
  | cons hd tl ih =>
    cases hd with
    | mk w l =>
      simp only [runLoop, List.length_append, List.length_cons, stepLine_singleton, ih]
      omega

/-- Responses to earlier lines are emitted before responses to later lines:
the loop distributes over concatenation of the input. -/
theorem runLoop_append (st : SState) (a b : List (StepWorld × Line)) :
    runLoop st (a ++ b) =
      ((runLoop (runLoop st a).1 b).1, (runLoop st a).2 ++ (runLoop (runLoop st a).1 b).2) := by
  induction a generalizing st with
  | nil => simp [runLoop]
  | cons hd tl ih =>
    cases hd with
    | mk w l =>
      simp only [List.cons_append, runLoop, List.append_eq, ih, List.append_assoc]

/-! ### The claims -/

/-- Claim C1: for every line read from the input channel, the dispatch loop
writes exactly one JSON response line before reading the next line, so
responses are emitted in exactly the order the requests were read, the
dispatcher never emits an unsolicited message (every response is the unique
response of some consumed line, in consumption order), and the loop, being
structurally recursive over the incoming line list, terminates exactly when
the input stream closes (external task cancellation is outside this
sequential model). -/
theorem dispatch_one_response_per_line_in_order
    (st : SState) (ins ins2 : List (StepWorld × Line)) (w : StepWorld) (l : Line) :
    (stepLine w st l).2.1.length = 1 ∧
    (runLoop st ins).2.length = ins.length ∧
    runLoop st (ins ++ ins2) =
      ((runLoop (runLoop st ins).1 ins2).1,
       (runLoop st ins).2 ++ (runLoop (runLoop st ins).1 ins2).2) :=
  ⟨stepLine_singleton w st l, runLoop_length st ins, runLoop_append st ins ins2⟩

/-- Claim C3: an input line that fails to parse as JSON produces exactly one
response, of type error, leaves the server state untouched, and the loop
goes on to process the remaining lines exactly as it would have without the
malformed line. -/
theorem malformed_line_error_then_continue
    (w : StepWorld) (st : SState) (m : String) (rest : List (StepWorld × Line)) :
    runLoop st ((w, .malformed m) :: rest) =
      ((runLoop st rest).1,
       Response.error ("Invalid JSON: " ++ m) :: (runLoop st rest).2) ∧
    respType (Response.error ("Invalid JSON: " ++ m)) = "error" ∧
    (stepLine w st (.malformed m)).1 = st := by
  refine ⟨?_, rfl, rfl⟩
  simp [runLoop, stepLine]

/-- Claim C9: the end-to-end scenario: an initialize request returns an
initialize_result carrying the tool summaries whose names are, in
registration order, get_time, calculate, get_weather, github_repo,
execute_command, ui_generator, code_analysis, auto_deploy; a following
execute_tool request for calculate with expression add(3,4) returns an
execute_tool_result with content 7. -/
theorem initialize_then_calculate_scenario (st : SState) (w1 w2 : StepWorld) :
    (runLoop st [(w1, .parsed (.obj [("type", .str "initialize")])),
                 (w2, .parsed calcAddReq)]).2 =
      [.initializeResult ["0.1.0"] toolSummaries, .executeToolResult "7"] ∧
    toolSummaries.map (fun t => t.name) =
      ["get_time", "calculate", "get_weather", "github_repo", "execute_command",
       "ui_generator", "code_analysis", "auto_deploy"] ∧
    respType (.initializeResult ["0.1.0"] toolSummaries) = "initialize_result" ∧
    respType (.executeToolResult "7") = "execute_tool_result" :=
  ⟨rfl, rfl, rfl, rfl⟩

/-- Claim C10: for every numeric x, a calculate call whose expression string
evaluates to divide(x, 0) neither raises nor yields an error-type response:
the dispatcher returns a normal execute_tool_result whose content is the
literal string Division by zero error, with the server state untouched. -/
theorem divide_by_zero_reported_in_band
    (w : StepWorld) (st : SState) (x : Int) (s : String)
    (h : readCalcExpr s = some (.call .divide x 0)) :
    (handleRequest w st (execReq "calculate" (.obj [("expression", .str s)]))).2.1 =
      .executeToolResult "Division by zero error" ∧
    respType (handleRequest w st (execReq "calculate" (.obj [("expression", .str s)]))).2.1 =
      "execute_tool_result" ∧
    (handleRequest w st (execReq "calculate" (.obj [("expression", .str s)]))).1 = st := by
  have hcalc : calcExecute st (.obj [("expression", .str s)]) =
      ⟨st, [], .ok ⟨"Division by zero error"⟩⟩ := by
    simp [calcExecute, jGet, h, evalCalc, calcValStr]
  refine ⟨?_, ?_, ?_⟩ <;> rw [handleRequest_calculate, hcalc] <;> rfl

/-- Witness for claim C10 at the concrete expression divide(5, 0). -/
theorem divide_by_zero_reported_in_band_witness :
    readCalcExpr "divide(5, 0)" = some (.call .divide 5 0) ∧
    (handleRequest defaultWorld initState
        (execReq "calculate" (.obj [("expression", .str "divide(5, 0)")]))).2.1 =
      .executeToolResult "Division by zero error" :=
  ⟨by decide,
   (divide_by_zero_reported_in_band defaultWorld initState 5 "divide(5, 0)" (by decide)).1⟩

/-- An unregistered name resolves to nothing in the registry. -/
theorem findTool_none (name : String) (h : name ∉ registeredToolNames) :
    serverTools.find? (fun t => pyEqStrOpt (some (JValue.str name)) t.name) = none := by
  rw [List.find?_eq_none]
  intro t ht
  simp only [pyEqStrOpt, pyEqStr]
  intro hc
  exact h (show name ∈ serverTools.map (fun t => t.name) from
    List.mem_map.mpr ⟨t, ht, (eq_of_beq hc).symm⟩)

/-- Claim C4: an execute_tool request naming no registered tool produces a
single error response whose message contains the unknown name, invokes no
handler, leaves the state untouched, and the loop remains usable: a
following valid calculate request still succeeds. -/
theorem unknown_tool_error_and_loop_usable
    (w w2 : StepWorld) (st : SState) (name : String) (args : JValue)
    (h : name ∉ registeredToolNames) :
    handleRequest w st (execReq name args) =
      (st, .error ("Tool " ++ sq ++ name ++ sq ++ " not found"), []) ∧
    respType (.error ("Tool " ++ sq ++ name ++ sq ++ " not found")) = "error" ∧
    (∃ p q, "Tool " ++ sq ++ name ++ sq ++ " not found" = p ++ name ++ q) ∧
    (runLoop st [(w, .parsed (execReq name args)), (w2, .parsed calcAddReq)]).2 =
      [.error ("Tool " ++ sq ++ name ++ sq ++ " not found"), .executeToolResult "7"] := by
  have h1 : handleRequest w st (execReq name args) =
      (match serverTools.find? (fun t => pyEqStrOpt (some (JValue.str name)) t.name) with
       | some t => dispatchOut t.name (execHandler w st t.handler args)
       | none => (st, .error ("Tool " ++ sq ++ name ++ sq ++ " not found"), [])) := rfl
  rw [findTool_none name h] at h1
  have h2 : handleRequest w2 st calcAddReq =
      (st, .executeToolResult "7", [.invokeHandler "calculate"]) := rfl
  refine ⟨h1, rfl, ⟨"Tool " ++ sq, sq ++ " not found", by simp [String.append_assoc]⟩, ?_⟩
  simp [runLoop, stepLine, h1, h2]

/-- Witness for claim C4 at the concrete unregistered name nosuch. -/
theorem unknown_tool_error_witness :
    "nosuch" ∉ registeredToolNames ∧
    (runLoop initState
        [(defaultWorld, .parsed (execReq "nosuch" (.obj []))),
         (defaultWorld, .parsed calcAddReq)]).2 =
      [.error ("Tool " ++ sq ++ "nosuch" ++ sq ++ " not found"), .executeToolResult "7"] :=
  ⟨by decide,
   (unknown_tool_error_and_loop_usable defaultWorld defaultWorld initState
      "nosuch" (.obj []) (by decide)).2.2.2⟩

/-- The timeout message of the command-execution tool, naming the effective
timeout value. -/
def timeoutMsg (params : JValue) : String :=
  "Error: Command execution timed out after " ++ pyStrOf (cmdTimeout params) ++ " seconds"

/-- Claim C7: the command-execution timeout defaults to 30 seconds when the
caller supplies none, and on expiry of the timeout the child is forcibly
killed and a normal result reporting a timeout message naming the timeout is
returned — not a raised exception and not an error-type response. -/
theorem command_timeout_default_and_kill
    (w : StepWorld) (st : SState) (fs : List (String × JValue)) (c : String)
    (hcmd : jGet (.obj fs) "command" = some (.str c)) (hc : c ≠ "")
    (hspawn : w.cmdSpawn = .ok .timedOut) :
    (jGet (.obj fs) "timeout" = none → cmdTimeout (.obj fs) = .num 30) ∧
    commandExecute w st (.obj fs) =
      ⟨st, [.spawnCommand c, .killChild], .ok ⟨timeoutMsg (.obj fs)⟩⟩ ∧
    Effect.killChild ∈ (commandExecute w st (.obj fs)).effects ∧
    (handleRequest w st (execReq "execute_command" (.obj fs))).2.1 =
      .executeToolResult (timeoutMsg (.obj fs)) ∧
    respType ((handleRequest w st (execReq "execute_command" (.obj fs))).2.1) =
      "execute_tool_result" := by
  have hc2 : (c != "") = true := by simpa using hc
  have hmain : commandExecute w st (.obj fs) =
      ⟨st, [.spawnCommand c, .killChild], .ok ⟨timeoutMsg (.obj fs)⟩⟩ := by
    simp [commandExecute, hcmd, pyTruthy, hc2, hspawn, timeoutMsg, pyStrOf]
  refine ⟨fun hnone => by simp [cmdTimeout, hnone], hmain, by rw [hmain]; simp, ?_, ?_⟩
  · rw [handleRequest_command, hmain]; rfl
  · rw [handleRequest_command, hmain]; rfl

/-- The world of the command-timeout witness: the awaited command expires. -/
def timedOutWorld : StepWorld :=
  { defaultWorld with cmdSpawn := .ok .timedOut }

/-- Witness for claim C7: a sleeping command under timeout 1 is killed and
reported, and a request without a timeout argument gets the default 30. -/
theorem command_timeout_witness :
    commandExecute timedOutWorld initState
        (.obj [("command", .str "sleep 5"), ("timeout", .num 1)]) =
      ⟨initState, [.spawnCommand "sleep 5", .killChild],
       .ok ⟨"Error: Command execution timed out after 1 seconds"⟩⟩ ∧
    cmdTimeout (.obj [("command", .str "echo hi")]) = .num 30 :=
  ⟨(command_timeout_default_and_kill timedOutWorld initState
      [("command", .str "sleep 5"), ("timeout", .num 1)] "sleep 5" rfl (by decide) rfl).2.1,
   (command_timeout_default_and_kill timedOutWorld initState
      [("command", .str "echo hi")] "echo hi" rfl (by decide) rfl).1 rfl⟩

/-- Claim C5: the repository-dependent wrapped handlers (code analysis, UI
generation, deployment) each return the shared reported error without
entering the wrapped body when the shared context has no live path; for code
analysis the same holds when the git working-tree probe fails or raises. -/
theorem wrappers_require_live_repo (w : StepWorld) (st : SState) (params : JValue) :
    (repoPathLive w st = false →
       codeWrapped w st params = ⟨st, [], .ok ⟨noValidRepoMsg⟩⟩ ∧
       uiWrapped w st params = ⟨st, [], .ok ⟨noValidRepoMsg⟩⟩ ∧
       deployWrapped w st params = ⟨st, [], .ok ⟨noValidRepoMsg⟩⟩ ∧
       Effect.invokeBody "code_analysis" ∉ (codeWrapped w st params).effects ∧
       Effect.invokeBody "ui_generator" ∉ (uiWrapped w st params).effects ∧
       Effect.invokeBody "auto_deploy" ∉ (deployWrapped w st params).effects) ∧
    (∀ e, repoPathLive w st = true → w.codeGitCheck = Except.error e →
       (codeWrapped w st params).outcome =
         .ok ⟨"Error: Could not verify if the current path is a git repository. Please clone a repository first."⟩ ∧
       Effect.invokeBody "code_analysis" ∉ (codeWrapped w st params).effects) ∧
    (∀ rc, repoPathLive w st = true → w.codeGitCheck = Except.ok rc → rc ≠ 0 →
       (codeWrapped w st params).outcome =
         .ok ⟨"Error: The current path is not a valid git repository. Please clone a repository first."⟩ ∧
       Effect.invokeBody "code_analysis" ∉ (codeWrapped w st params).effects) := by
  refine ⟨fun hl => ?_, fun e hl hg => ?_, fun rc hl hg hrc => ?_⟩
  · refine ⟨?_, ?_, ?_, ?_, ?_, ?_⟩ <;> simp [codeWrapped, uiWrapped, deployWrapped, hl]
  · constructor <;> simp [codeWrapped, hl, hg]
  · have hrc2 : (rc != 0) = true := by simpa using hrc
    constructor <;> simp [codeWrapped, hl, hg, hrc2]

/-- A state with a live repository but a probe-relevant world, for the C5
witness. -/
def liveRepoState : SState :=
  { initState with repo := ⟨some "/tmp/repo", some "r", some (.str "https://h/r.git")⟩ }

/-- A world whose git working-tree probe reports a non-zero status. -/
def notGitWorld : StepWorld :=
  { defaultWorld with codeGitCheck := .ok 128 }

/-- Witness for claim C5: with no repository cloned all three wrappers
report the shared error and never enter the body; with a live path but a
failing working-tree probe, code analysis reports the probe error without
entering the body. -/
theorem wrappers_require_live_repo_witness :
    repoPathLive defaultWorld initState = false ∧
    codeWrapped defaultWorld initState (.obj []) = ⟨initState, [], .ok ⟨noValidRepoMsg⟩⟩ ∧
    uiWrapped defaultWorld initState (.obj []) = ⟨initState, [], .ok ⟨noValidRepoMsg⟩⟩ ∧
    deployWrapped defaultWorld initState (.obj []) = ⟨initState, [], .ok ⟨noValidRepoMsg⟩⟩ ∧
    (codeWrapped notGitWorld liveRepoState (.obj [])).outcome =
      .ok ⟨"Error: The current path is not a valid git repository. Please clone a repository first."⟩ ∧
    Effect.invokeBody "code_analysis" ∉ (codeWrapped notGitWorld liveRepoState (.obj [])).effects := by
  have h1 := (wrappers_require_live_repo defaultWorld initState (.obj [])).1 rfl
  have h2 := (wrappers_require_live_repo notGitWorld liveRepoState (.obj [])).2.2 128 rfl rfl
    (by decide)
  exact ⟨rfl, h1.1, h1.2.1, h1.2.2.1, h2.1, h2.2⟩

/-- A stop_ui request for a session id. -/
def stopUiReq (sid : String) : JValue :=
  .obj [("action", .str "stop_ui"), ("session_id", .str sid)]

/-- A deployment stop request for a deployment id. -/
def stopDeployReq (did : String) : JValue :=
  .obj [("action", .str "stop"), ("deploy_id", .str did)]

/-- Branch reduction of the UI handler on a stop_ui request. -/
theorem uiExecute_stopUi (w : StepWorld) (st : SState) (sid : String) :
    uiExecute w st (stopUiReq sid) =
      (if pyTruthyOS st.repo.repoPath = false then
        ⟨st, [],
         .ok ⟨"Error: No repository is currently cloned. Please clone a repository first."⟩⟩
      else if (sid != "") && (st.uiProcs sid).isSome then
        match uiStopAttempt w with
        | .error e =>
          ⟨st, (if w.uiPollRunning then [.terminateChild sid] else []),
           .ok ⟨"Error stopping UI: " ++ e⟩⟩
        | .ok _ =>
          ⟨{ st with uiProcs := fun k => if k = sid then none else st.uiProcs k },
           (if w.uiPollRunning then [.terminateChild sid] else []),
           .ok ⟨"UI session " ++ sid ++ " has been stopped"⟩⟩
      else ⟨st, [], .ok ⟨"Error: Invalid or unknown session ID"⟩⟩) := rfl

/-- Branch reduction of the deployment handler on a stop request. -/
theorem deployExecute_stop (w : StepWorld) (st : SState) (did : String) :
    deployExecute w st (stopDeployReq did) =
      (if pyTruthyOS st.repo.repoPath = false then
        ⟨st, [],
         .ok ⟨"Error: No repository is currently cloned. Please clone a repository first."⟩⟩
      else if (did != "") && (st.deployProcs did).isSome then stopDeployment w st did
      else ⟨st, [], .ok ⟨"Error: Invalid or unknown deployment ID"⟩⟩) := rfl

/-- Claim C6: stop_ui on a tracked session whose termination sequence
succeeds removes exactly that entry (all other sessions and the deployment
table untouched); stop_ui or deployment stop with an unknown id reports an
error and changes nothing; an entry is removed only when the termination
sequence succeeded, and a deployment whose teardown exits non-zero stays
tracked. -/
theorem stop_session_frame
    (w : StepWorld) (st : SState) (hrepo : pyTruthyOS st.repo.repoPath = true) :
    (∀ sid info, sid ≠ "" → st.uiProcs sid = some info → uiStopAttempt w = .ok () →
       (uiExecute w st (stopUiReq sid)).state.uiProcs sid = none ∧
       (∀ k, k ≠ sid → (uiExecute w st (stopUiReq sid)).state.uiProcs k = st.uiProcs k) ∧
       (uiExecute w st (stopUiReq sid)).state.deployProcs = st.deployProcs ∧
       (uiExecute w st (stopUiReq sid)).outcome =
         .ok ⟨"UI session " ++ sid ++ " has been stopped"⟩) ∧
    (∀ sid, st.uiProcs sid = none →
       uiExecute w st (stopUiReq sid) = ⟨st, [], .ok ⟨"Error: Invalid or unknown session ID"⟩⟩) ∧
    (∀ sid info e, sid ≠ "" → st.uiProcs sid = some info → uiStopAttempt w = .error e →
       (uiExecute w st (stopUiReq sid)).state = st ∧
       (uiExecute w st (stopUiReq sid)).outcome = .ok ⟨"Error stopping UI: " ++ e⟩) ∧
    (∀ sid info, st.uiProcs sid = some info →
       (uiExecute w st (stopUiReq sid)).state.uiProcs sid = none →
       uiStopAttempt w = .ok ()) ∧
    (∀ did, st.deployProcs did = none →
       deployExecute w st (stopDeployReq did) =
         ⟨st, [], .ok ⟨"Error: Invalid or unknown deployment ID"⟩⟩) ∧
    (∀ did dinfo rc out err, did ≠ "" → st.deployProcs did = some dinfo →
       w.pathExists dinfo.repoPath = true → w.deployDown = .ok (rc, out, err) → rc ≠ 0 →
       (deployExecute w st (stopDeployReq did)).state.deployProcs did = some dinfo ∧
       (deployExecute w st (stopDeployReq did)).outcome =
         .ok ⟨"Error stopping deployment:\n\n" ++ err⟩) := by
  refine ⟨?_, ?_, ?_, ?_, ?_, ?_⟩
  · intro sid info hsid hin hstop
    have hsid2 : (sid != "") = true := by simpa using hsid
    have hmain : uiExecute w st (stopUiReq sid) =
        ⟨{ st with uiProcs := fun k => if k = sid then none else st.uiProcs k },
         (if w.uiPollRunning then [.terminateChild sid] else []),
         .ok ⟨"UI session " ++ sid ++ " has been stopped"⟩⟩ := by
      rw [uiExecute_stopUi]
      simp [hrepo, hsid2, hin, hstop]
    rw [hmain]
    exact ⟨by simp, fun k hk => by simp [hk], rfl, rfl⟩
  · intro sid hnone
    rw [uiExecute_stopUi]
    simp [hrepo, hnone]
  · intro sid info e hsid hin hstop
    have hsid2 : (sid != "") = true := by simpa using hsid
    have hmain : uiExecute w st (stopUiReq sid) =
        ⟨st, (if w.uiPollRunning then [.terminateChild sid] else []),
         .ok ⟨"Error stopping UI: " ++ e⟩⟩ := by
      rw [uiExecute_stopUi]
      simp [hrepo, hsid2, hin, hstop]
    rw [hmain]
    exact ⟨rfl, rfl⟩
  · intro sid info hin hnone
    by_cases hsid : sid = ""
    · subst hsid
      rw [uiExecute_stopUi] at hnone
      simp [hrepo] at hnone
      rw [hin] at hnone
      cases hnone
    · have hsid2 : (sid != "") = true := by simpa using hsid
      cases hstop : uiStopAttempt w with
      | ok u => cases u; rfl
      | error e =>
        rw [uiExecute_stopUi] at hnone
        simp [hrepo, hsid2, hin, hstop] at hnone
  · intro did hnone
    rw [deployExecute_stop]
    simp [hrepo, hnone]
  · intro did dinfo rc out err hdid hin hp hdown hrc
    have hdid2 : (did != "") = true := by simpa using hdid
    have hrc2 : (rc != 0) = true := by simpa using hrc
    have hmain : deployExecute w st (stopDeployReq did) =
        ⟨st, [.chdir dinfo.repoPath, .composeDown dinfo.repoPath, .chdir st.cwd],
         .ok ⟨"Error stopping deployment:\n\n" ++ err⟩⟩ := by
      rw [deployExecute_stop]
      simp [hrepo, hdid2, hin, stopDeployment, hp, hdown, hrc2]
    rw [hmain]
    exact ⟨hin, rfl⟩

/-- The session tables of the C6 witness: two UI sessions, one deployment,
with a live repository context. -/
def sessionsState : SState :=
  { liveRepoState with
    uiProcs := fun k =>
      if k = "s1" then some ⟨"app.py", "http://localhost:8501", 8501⟩
      else if k = "s2" then some ⟨"main.py", "http://localhost:8502", 8502⟩
      else none,
    deployProcs := fun k =>
      if k = "d1" then some ⟨"python", "/tmp/repo", "2026-01-01 00:00:00"⟩ else none }

/-- A world whose teardown command exits with status 1. -/
def downFailWorld : StepWorld :=
  { defaultWorld with deployDown := .ok (1, "", "teardown failed") }

/-- Witness for claim C6: stopping s1 removes exactly s1 and keeps s2; an
unknown session reports an error and changes nothing; a deployment whose
teardown exits non-zero stays tracked. -/
theorem stop_session_frame_witness :
    (uiExecute defaultWorld sessionsState (stopUiReq "s1")).state.uiProcs "s1" = none ∧
    (uiExecute defaultWorld sessionsState (stopUiReq "s1")).state.uiProcs "s2" =
      sessionsState.uiProcs "s2" ∧
    uiExecute defaultWorld sessionsState (stopUiReq "zz") =
      ⟨sessionsState, [], .ok ⟨"Error: Invalid or unknown session ID"⟩⟩ ∧
    (deployExecute downFailWorld sessionsState (stopDeployReq "d1")).state.deployProcs "d1" =
      some ⟨"python", "/tmp/repo", "2026-01-01 00:00:00"⟩ ∧
    (deployExecute downFailWorld sessionsState (stopDeployReq "d1")).outcome =
      .ok ⟨"Error stopping deployment:\n\nteardown failed"⟩ := by
  have h1 := (stop_session_frame defaultWorld sessionsState rfl).1 "s1"
    ⟨"app.py", "http://localhost:8501", 8501⟩ (by decide) rfl rfl
  have h2 := (stop_session_frame defaultWorld sessionsState rfl).2.1 "zz" rfl
  have h3 := (stop_session_frame downFailWorld sessionsState rfl).2.2.2.2.2 "d1"
    ⟨"python", "/tmp/repo", "2026-01-01 00:00:00"⟩ 1 "" "teardown failed"
    (by decide) rfl rfl rfl (by decide)
  exact ⟨h1.1, h1.2.1 "s2" (by decide), h2, h3.1, h3.2⟩

/-- A clone request for a repository URL. -/
def cloneReq (url : String) : JValue :=
  .obj [("action", .str "clone"), ("repo_url", .str url)]

/-- Suffix test on character lists. -/
def endsWithCs (suffix s : List Char) : Bool :=
  (dropPre suffix.reverse s.reverse).isSome

/-- The name derivation as the claim words it, for comparison with the code:
the last "/"-separated segment of the URL with one trailing .git suffix
stripped, and only a trailing suffix. -/
def specCloneDerivedName (url : String) : String :=
  let s := lastSegment url
  if endsWithCs ".git".data s.data then String.mk (s.data.take (s.data.length - 4)) else s

/-- A world whose git clone subprocess fails. -/
def cloneBadWorld : StepWorld :=
  { defaultWorld with cloneResult := .error "fatal: repository not found" }

/-- Counterexample to claim C2 as stated, at the URL https://h/a.gitb.git
with a failing clone: the code derives the name by deleting every occurrence
of .git from the last segment (ab, not the trailing-strip a.gitb the claim
describes), and the context path is updated although the clone failed, so
the update is not conditional on success. -/
theorem clone_claim_counterexample :
    specCloneDerivedName "https://h/a.gitb.git" = "a.gitb" ∧
    (githubExecute cloneBadWorld initState (cloneReq "https://h/a.gitb.git")).state.repo.repoName =
      some "ab" ∧
    some "ab" ≠ some (specCloneDerivedName "https://h/a.gitb.git") ∧
    cloneBadWorld.cloneResult = .error "fatal: repository not found" ∧
    initState.repo.repoPath = none ∧
    (githubExecute cloneBadWorld initState (cloneReq "https://h/a.gitb.git")).state.repo.repoPath =
      some "/tmp/t1" ∧
    (githubExecute cloneBadWorld initState (cloneReq "https://h/a.gitb.git")).outcome =
      .ok ⟨"Error cloning repository: fatal: repository not found"⟩ :=
  ⟨rfl, rfl, by decide, rfl, rfl, rfl, rfl⟩

/-- Claim C2 as amended: for every clone with a non-empty string URL, the
previous existing checkout is removed, a fresh temporary directory is
created, and the context (path, url, name) is assigned before the clone
subprocess runs — hence regardless of its success — with the name obtained
by deleting every occurrence of .git from the last path segment; a failing
clone reports the underlying error text in-band. -/
theorem clone_updates_context_before_attempt
    (w : StepWorld) (st : SState) (url : String) (h : url ≠ "") :
    (githubExecute w st (cloneReq url)).state.repo.repoPath = some w.mkdtempPath ∧
    (githubExecute w st (cloneReq url)).state.repo.repoUrl = some (.str url) ∧
    (githubExecute w st (cloneReq url)).state.repo.repoName =
      some (pyReplace (lastSegment url) ".git" "") ∧
    (githubExecute w st (cloneReq url)).effects =
      (match st.repo.repoPath with
       | some p => if (p != "") && w.pathExists p then [Effect.rmtree p] else []
       | none => []) ++ [Effect.mkdtempDir w.mkdtempPath, Effect.gitClone url w.mkdtempPath] ∧
    (∀ e, w.cloneResult = .error e →
       (githubExecute w st (cloneReq url)).outcome = .ok ⟨"Error cloning repository: " ++ e⟩) ∧
    (w.cloneResult = .ok () →
       (githubExecute w st (cloneReq url)).outcome =
         .ok ⟨"Successfully cloned repository: " ++ url ++ " to " ++ w.mkdtempPath⟩) := by
  have hu : (url != "") = true := by simpa using h
  have hmain : githubExecute w st (cloneReq url) =
      (if (url != "") = false then
        ⟨st, [], .ok ⟨"Error: Repository URL not provided"⟩⟩
      else
        let cleanup : List Effect :=
          match st.repo.repoPath with
          | some p => if (p != "") && w.pathExists p then [.rmtree p] else []
          | none => []
        let st' := { st with repo := ⟨some w.mkdtempPath,
          some (pyReplace (lastSegment url) ".git" ""), some (.str url)⟩ }
        let effs := cleanup ++ [.mkdtempDir w.mkdtempPath, .gitClone url w.mkdtempPath]
        match w.cloneResult with
        | .ok _ =>
          ⟨st', effs, .ok ⟨"Successfully cloned repository: " ++ url ++ " to " ++ w.mkdtempPath⟩⟩
        | .error e => ⟨st', effs, .ok ⟨"Error cloning repository: " ++ e⟩⟩) := rfl
  rw [hmain]
  simp only [hu, Bool.true_eq_false, if_false]
  cases hw : w.cloneResult with
  | ok u =>
    exact ⟨rfl, rfl, rfl, rfl, fun e he => Except.noConfusion he, fun _ => rfl⟩
  | error e0 =>
    refine ⟨rfl, rfl, rfl, rfl, fun e he => ?_, fun hok => Except.noConfusion hok⟩
    cases he
    rfl

/-- Witness for the amended claim C2 at a concrete URL with a failing
clone: the context path is the fresh temporary directory. -/
theorem clone_updates_context_witness :
    (githubExecute cloneBadWorld initState (cloneReq "https://h/r.git")).state.repo.repoPath =
      some "/tmp/t1" ∧
    (githubExecute cloneBadWorld initState (cloneReq "https://h/r.git")).state.repo.repoName =
      some "r" ∧
    (githubExecute cloneBadWorld initState (cloneReq "https://h/r.git")).outcome =
      .ok ⟨"Error cloning repository: fatal: repository not found"⟩ :=
  ⟨(clone_updates_context_before_attempt cloneBadWorld initState "https://h/r.git"
      (by decide)).1,
   (clone_updates_context_before_attempt cloneBadWorld initState "https://h/r.git"
      (by decide)).2.2.1,
   (clone_updates_context_before_attempt cloneBadWorld initState "https://h/r.git"
      (by decide)).2.2.2.2.1 "fatal: repository not found" rfl⟩

/-- A state with a cloned repository, for the C8 evaluation. -/
def repoInfoState : SState :=
  { initState with repo := ⟨some "/tmp/repo", some "r", some (.str "https://h/r.git")⟩ }

/-- A world where the version-control subprocess of get_repo_info raises
(FileNotFoundError: the git executable is missing). -/
def gitMissingWorld : StepWorld :=
  { defaultWorld with
    branchRun := .error ("[Errno 2] No such file or directory: " ++ sq ++ "git" ++ sq) }

/-- Claim C8 evaluated at its failing input: when the subprocess invoked by
get_repo_info raises after the working directory was switched to the
repository root, the handler catches the exception and reports it in-band
but does not restore the working directory, while the normal path does
restore it — the temporary switch is not exception-safe, contradicting the
claim and the spec requirement. -/
theorem get_repo_info_cwd_not_restored :
    repoInfoState.cwd = "/srv" ∧
    (githubExecute gitMissingWorld repoInfoState
        (.obj [("action", .str "get_repo_info")])).state.cwd = "/tmp/repo" ∧
    (githubExecute gitMissingWorld repoInfoState
        (.obj [("action", .str "get_repo_info")])).state.cwd ≠ repoInfoState.cwd ∧
    (githubExecute gitMissingWorld repoInfoState
        (.obj [("action", .str "get_repo_info")])).outcome =
      .ok ⟨"Error getting repository information: [Errno 2] No such file or directory: " ++
           sq ++ "git" ++ sq⟩ ∧
    (githubExecute defaultWorld repoInfoState
        (.obj [("action", .str "get_repo_info")])).state.cwd = repoInfoState.cwd :=
  ⟨rfl, rfl, by decide, rfl, rfl⟩

end MCPServer
